import Mathlib

/-!
Shallow embedding of the cadvisor-lite core: the versioned API dispatcher
(`cmd/internal/api/versions.go`) and the container-handler factory registry
(`container` package; implementation modelled from the spec, only its tests
ship in the tree).

Collaborator data (machine info, queries, durations, v1/v2 info conversions,
events) is opaque: each is an inductive wrapper, so conversions are
uninterpreted injections.  HTTP side effects are made explicit: the response
writer is a function `Value → Option Err` (`none` = write succeeded) and a
handler returns `Except Err Value`, the value being what was written.
-/

set_option maxHeartbeats 1000000

/-- Opaque machine-info payload (`info/v1.MachineInfo`). -/
inductive MachineInfo
  | mk (id : Nat)
deriving DecidableEq

/-- Opaque container-info query payload (`info/v1.ContainerInfoRequest`). -/
inductive Query
  | mk (id : Nat)
deriving DecidableEq

/-- Opaque duration payload (`time.Duration`). -/
inductive Duration
  | mk (id : Nat)
deriving DecidableEq

/-- Opaque past-events payload (`[]*events.Event`). -/
inductive Events
  | mk (id : Nat)
deriving DecidableEq

/-- Opaque event channel (`*events.EventChannel`). -/
inductive EventChannel
  | mk (id : Nat)
deriving DecidableEq

/-- `info/v1.ContainerInfo`: the fields `versions.go` reads.  `spec` and
`stats` are opaque payload identifiers for `cont.Spec` / `cont.Stats`. -/
structure ContainerInfo where
  name : String
  aliases : List String
  ns : String
  spec : Nat
  stats : Nat
deriving DecidableEq

/-- Event query (`events.Request`); `versions.go` overwrites `ContainerName`. -/
structure EventQuery where
  id : Nat
  containerName : String
deriving DecidableEq

/-- Uninterpreted conversion `v2.DeprecatedStatsFromV1`. -/
inductive DeprecatedStats
  | fromV1 (c : ContainerInfo)
deriving DecidableEq

/-- Uninterpreted conversion `v2.ContainerSpecFromV1(&cont.Spec, cont.Aliases, cont.Namespace)`. -/
inductive V2Spec
  | fromV1 (spec : Nat) (aliases : List String) (ns : String)
deriving DecidableEq

/-- Uninterpreted conversion `v2.ContainerStatsFromV1(name, &cont.Spec, cont.Stats)`. -/
inductive V2Stats
  | fromV1 (name : String) (spec : Nat) (stats : Nat)
deriving DecidableEq

/-- `v2.ContainerInfo` as built by the v2.1 stats handler. -/
structure V2ContainerInfo where
  spec : V2Spec
  stats : V2Stats
deriving DecidableEq

/-- Uninterpreted conversion `v2.MachineStatsFromV1(cont["/"])`; `none` is the
zero value produced by a missing `"/"` key. -/
inductive MachineStatsV2
  | fromV1 (c : Option ContainerInfo)
deriving DecidableEq

/-- Errors produced by the embedded code.  Each `fmt.Errorf` at a distinct
program point is a distinct constructor carrying its format arguments;
collaborator errors (manager, body decode, response writer, event plumbing)
are `external`. -/
inductive Err
  | unknownRequestType (t : String)
  | failedToGetContainer (name : String) (e : Err)
  | failedToGetSubcontainers (name : String) (e : Err)
  | failedAllDocker (e : Err)
  | failedDockerContainer (name : String) (e : Err)
  | unknownDockerRequest (request : List String)
  | unknownIdType (t : String)
  | countParse (raw : String)
  | countInvalid (n : Int)
  | maxAgeParse (raw : String)
  | noHandlerFound (name : String)
  | constructionFailed (name : String) (factory : String) (e : Err)
  | external (id : Nat)
deriving DecidableEq

/-- A value passed to `writeResult` (what the handler writes on success). -/
inductive Value
  | machineInfo (mi : MachineInfo)
  | containerInfo (c : ContainerInfo)
  | containerList (cs : List ContainerInfo)
  | dockerMap (cs : List (String × ContainerInfo))
  | deprecatedStatsMap (l : List (String × DeprecatedStats))
  | v2StatsMap (l : List (String × V2ContainerInfo))
  | machineStats (s : MachineStatsV2)
  | pastEvents (e : Events)
  | streamed (ch : EventChannel)
deriving DecidableEq

/-- `v2.RequestOptions`. -/
structure RequestOptions where
  idType : String
  count : Int
  recursive : Bool
  maxAge : Option Duration
deriving DecidableEq

/-- The Manager collaborator consumed by the API handlers.  Go methods
returning `(T, error)` whose callers use the value only on `error == nil`
become `Except Err T`; `GetRequestedContainersInfo` may return partial
results alongside an error, so it keeps the full pair.  Go maps are
association lists.  `getPastEvents`/`watchForEvents` back the events API. -/
structure Manager where
  getMachineInfo : Except Err MachineInfo
  getContainerInfo : String → Query → Except Err ContainerInfo
  subcontainersInfo : String → Query → Except Err (List ContainerInfo)
  allDockerContainers : Query → Except Err (List (String × ContainerInfo))
  dockerContainer : String → Query → Except Err ContainerInfo
  getRequestedContainersInfo : String → RequestOptions → List (String × ContainerInfo) × Option Err
  getPastEvents : EventQuery → Except Err Events
  watchForEvents : EventQuery → Except Err EventChannel

/-- An HTTP request together with the per-request oracles the handlers
consume: `body` is the outcome of `getContainerInfoRequest(r.Body)`,
`queryParams` is `r.URL.Query().Get` (absent parameter = `""`),
`parseDuration` stands for `time.ParseDuration`, `eventReq` for
`getEventRequest(r)` (query and streaming flag), and `streamResults` for the
event-streaming loop over this request's connection. -/
structure HttpRequest where
  body : Except Err Query
  queryParams : String → String
  parseDuration : String → Option Duration
  eventReq : Except Err (EventQuery × Bool)
  streamResults : EventChannel → Except Err Value

/-- The response writer: `writeResult(v, w)`; `some e` is a write failure. -/
def RespWriter : Type := Value → Option Err

/-- `writeResult`: writes `v`, surfacing a writer failure; the returned `ok`
value records what was written. -/
def writeResult (wf : RespWriter) (v : Value) : Except Err Value :=
  match wf v with
  | some e => Except.error e
  | none => Except.ok v

-- Request-type constants of versions.go.
def containersAPI : String := "containers"
def subcontainersAPI : String := "subcontainers"
def machineAPI : String := "machine"
def machineStatsAPI : String := "machinestats"
def dockerAPI : String := "docker"
def summaryAPI : String := "summary"
def statsAPI : String := "stats"
def specAPI : String := "spec"
def eventsAPI : String := "events"
def storageAPI : String := "storage"
def attributesAPI : String := "attributes"
def versionAPI : String := "version"
def psAPI : String := "ps"
def customMetricsAPI : String := "appmetrics"

/-- `getContainerName` (helper in `api.go`, outside the packaged sources):
joins the path segments under the root.  Claims never inspect its value; it
only flows opaquely into Manager calls. -/
def getContainerName (request : List String) : String :=
  "/" ++ String.intercalate "/" request

/-- `path.Join("/", s)` as used by `handleEventRequest`, without dot-segment
cleaning (the argument is already rooted). -/
def pathJoinRoot (s : String) : String :=
  if s = "" then "/" else if s.startsWith "/" then s else "/" ++ s

-- Identifier-type constants.  Modelled from the spec: `v2.TypeName`,
-- `v2.TypeDocker`, `v2.TypePodman` live in `info/v2` (not in the packaged
-- sources); the spec fixes the allow-set to {name, docker, podman}.
namespace v2

def TypeName : String := "name"

def TypeDocker : String := "docker"

def TypePodman : String := "podman"

end v2

/-- The `supportedTypes` allow-set of `GetRequestOptions`. -/
def supportedTypes (t : String) : Bool :=
  t == v2.TypeName || t == v2.TypeDocker || t == v2.TypePodman

/-- Digit run of `strconv.Atoi`: all characters must be decimal digits. -/
def digitsToNatAux : List Char → Nat → Option Nat
  | [], acc => some acc
  | c :: cs, acc =>
    if c.isDigit then digitsToNatAux cs (acc * 10 + (c.toNat - 48)) else none

/-- `strconv.Atoi`: optional sign then a non-empty digit run (the 64-bit
range cap is not modelled; no claim depends on it). -/
def atoi (s : String) : Option Int :=
  match s.toList with
  | [] => none
  | c :: cs =>
    if c = '-' then
      if cs = [] then none else (digitsToNatAux cs 0).map (fun n => -(n : Int))
    else if c = '+' then
      if cs = [] then none else (digitsToNatAux cs 0).map (fun n => (n : Int))
    else
      (digitsToNatAux (c :: cs) 0).map (fun n => (n : Int))

/-- `GetRequestOptions`: parses `type`, `count`, `recursive`, `max_age` from
the request's query parameters, with defaults `{name, 64, false, unset}`. -/
def GetRequestOptions (r : HttpRequest) : Except Err RequestOptions :=
  let opt0 : RequestOptions :=
    { idType := v2.TypeName, count := 64, recursive := false, maxAge := none }
  let idType := r.queryParams "type"
  let tstep : Except Err RequestOptions :=
    if idType = "" then Except.ok opt0
    else if supportedTypes idType then Except.ok { opt0 with idType := idType }
    else Except.error (Err.unknownIdType idType)
  match tstep with
  | Except.error e => Except.error e
  | Except.ok o1 =>
    let count := r.queryParams "count"
    let cstep : Except Err RequestOptions :=
      if count = "" then Except.ok o1
      else
        match atoi count with
        | none => Except.error (Err.countParse count)
        | some n =>
          if n < -1 then Except.error (Err.countInvalid n)
          else Except.ok { o1 with count := n }
    match cstep with
    | Except.error e => Except.error e
    | Except.ok o2 =>
      let o3 := if r.queryParams "recursive" = "true" then { o2 with recursive := true } else o2
      let maxAgeString := r.queryParams "max_age"
      if maxAgeString = "" then Except.ok o3
      else
        match r.parseDuration maxAgeString with
        | none => Except.error (Err.maxAgeParse maxAgeString)
        | some d => Except.ok { o3 with maxAge := some d }

namespace version1_0

def Version : String := "v1.0"

def SupportedRequestTypes : List String := [containersAPI, machineAPI]

def HandleRequest (requestType : String) (request : List String) (m : Manager)
    (wf : RespWriter) (r : HttpRequest) : Except Err Value :=
  if requestType = machineAPI then
    match m.getMachineInfo with
    | Except.error e => Except.error e
    | Except.ok mi => writeResult wf (Value.machineInfo mi)
  else if requestType = containersAPI then
    match r.body with
    | Except.error e => Except.error e
    | Except.ok query =>
      match m.getContainerInfo (getContainerName request) query with
      | Except.error e =>
        Except.error (Err.failedToGetContainer (getContainerName request) e)
      | Except.ok cont => writeResult wf (Value.containerInfo cont)
  else Except.error (Err.unknownRequestType requestType)

end version1_0

namespace version1_1

def Version : String := "v1.1"

def SupportedRequestTypes : List String :=
  version1_0.SupportedRequestTypes ++ [subcontainersAPI]

def HandleRequest (requestType : String) (request : List String) (m : Manager)
    (wf : RespWriter) (r : HttpRequest) : Except Err Value :=
  if requestType = subcontainersAPI then
    match r.body with
    | Except.error e => Except.error e
    | Except.ok query =>
      match m.subcontainersInfo (getContainerName request) query with
      | Except.error e =>
        Except.error (Err.failedToGetSubcontainers (getContainerName request) e)
      | Except.ok containers => writeResult wf (Value.containerList containers)
  else version1_0.HandleRequest requestType request m wf r

end version1_1

namespace version1_2

def Version : String := "v1.2"

def SupportedRequestTypes : List String :=
  version1_1.SupportedRequestTypes ++ [dockerAPI]

def HandleRequest (requestType : String) (request : List String) (m : Manager)
    (wf : RespWriter) (r : HttpRequest) : Except Err Value :=
  if requestType = dockerAPI then
    match r.body with
    | Except.error e => Except.error e
    | Except.ok query =>
      let req := if request = [""] then [] else request
      match req with
      | [] =>
        match m.allDockerContainers query with
        | Except.error e => Except.error (Err.failedAllDocker e)
        | Except.ok containers => writeResult wf (Value.dockerMap containers)
      | [s] =>
        match m.dockerContainer s query with
        | Except.error e => Except.error (Err.failedDockerContainer s e)
        | Except.ok cont => writeResult wf (Value.dockerMap [(cont.name, cont)])
      | _ => Except.error (Err.unknownDockerRequest req)
  else version1_1.HandleRequest requestType request m wf r

end version1_2

/-- `handleEventRequest`: decode the event query, overwrite its container
name, then either fetch past events or open a stream. -/
def handleEventRequest (request : List String) (m : Manager) (wf : RespWriter)
    (r : HttpRequest) : Except Err Value :=
  match r.eventReq with
  | Except.error e => Except.error e
  | Except.ok (q0, stream) =>
    let query := { q0 with containerName := pathJoinRoot (getContainerName request) }
    if stream then
      match m.watchForEvents query with
      | Except.error e => Except.error e
      | Except.ok ch => r.streamResults ch
    else
      match m.getPastEvents query with
      | Except.error e => Except.error e
      | Except.ok evs => writeResult wf (Value.pastEvents evs)

namespace version1_3

def Version : String := "v1.3"

def SupportedRequestTypes : List String :=
  version1_2.SupportedRequestTypes ++ [eventsAPI]

def HandleRequest (requestType : String) (request : List String) (m : Manager)
    (wf : RespWriter) (r : HttpRequest) : Except Err Value :=
  if requestType = eventsAPI then
    handleEventRequest request m wf r
  else version1_2.HandleRequest requestType request m wf r

end version1_3

namespace version2_0

def Version : String := "v2.0"

def SupportedRequestTypes : List String :=
  [versionAPI, attributesAPI, eventsAPI, machineAPI, summaryAPI, statsAPI,
   specAPI, storageAPI, psAPI, customMetricsAPI]

def handleStatsAPI (request : List String) (opt : RequestOptions) (m : Manager)
    (wf : RespWriter) : Except Err Value :=
  let name := getContainerName request
  match m.getRequestedContainersInfo name opt with
  | (infos, merr) =>
    let contStats := infos.map (fun p => (p.1, DeprecatedStats.fromV1 p.2))
    match merr with
    | some e =>
      if infos.length = 0 then Except.error e
      else writeResult wf (Value.deprecatedStatsMap contStats)
    | none => writeResult wf (Value.deprecatedStatsMap contStats)

def HandleRequest (requestType : String) (request : List String) (m : Manager)
    (wf : RespWriter) (r : HttpRequest) : Except Err Value :=
  match GetRequestOptions r with
  | Except.error e => Except.error e
  | Except.ok opt =>
    if requestType = statsAPI then handleStatsAPI request opt m wf
    else Except.error (Err.unknownRequestType requestType)

end version2_0

namespace version2_1

def Version : String := "v2.1"

def SupportedRequestTypes : List String :=
  machineStatsAPI :: version2_0.SupportedRequestTypes

/-- The per-entry conversion of the v2.1 stats loop body (the loop variable
`name` shadows the outer container name). -/
def statsEntry (p : String × ContainerInfo) : String × V2ContainerInfo :=
  (p.1, { spec := V2Spec.fromV1 p.2.spec p.2.aliases p.2.ns,
          stats := V2Stats.fromV1 p.1 p.2.spec p.2.stats })

def HandleRequest (requestType : String) (request : List String) (m : Manager)
    (wf : RespWriter) (r : HttpRequest) : Except Err Value :=
  match GetRequestOptions r with
  | Except.error e => Except.error e
  | Except.ok opt =>
    if requestType = machineStatsAPI then
      match m.getRequestedContainersInfo "/" opt with
      | (cont, merr) =>
        let rootInfo := (cont.find? (fun p => p.1 == "/")).map Prod.snd
        let proceed := writeResult wf (Value.machineStats (MachineStatsV2.fromV1 rootInfo))
        match merr with
        | some e => if cont.length = 0 then Except.error e else proceed
        | none => proceed
    else if requestType = statsAPI then
      let name := getContainerName request
      match m.getRequestedContainersInfo name opt with
      | (conts, merr) =>
        let contStats := (conts.filter (fun p => !(p.1 == "/"))).map statsEntry
        let proceed := writeResult wf (Value.v2StatsMap contStats)
        match merr with
        | some e => if conts.length = 0 then Except.error e else proceed
        | none => proceed
    else version2_0.HandleRequest requestType request m wf r

end version2_1

/-! ## Factory registry

The `container` package implementation is not in the packaged sources (only
its tests are); the registry operations below are modelled from the spec. -/

/-- Container watch sources (`watcher.ContainerWatchSource`). -/
inductive ContainerWatchSource
  | Raw
  | Docker
  | Podman
deriving DecidableEq

/-- Opaque runtime-specific handler (`container.ContainerHandler`). -/
inductive ContainerHandler
  | mk (id : Nat)
deriving DecidableEq

/-- A container-handler factory capability: identity string (`String()`),
`CanHandleAndAccept`, and handler construction. -/
structure ContainerHandlerFactory where
  name : String
  canHandleAndAccept : String → Except Err (Bool × Bool)
  newContainerHandler : String → List String → Bool → Except Err ContainerHandler

/-- Registry state: per watch source, the ordered list of registered
factories. -/
def Registry : Type := ContainerWatchSource → List ContainerHandlerFactory

/-- The empty registry (state after `ClearContainerHandlerFactories`). -/
def emptyRegistry : Registry := fun _ => []

/-- Modelled from the spec: `RegisterContainerHandlerFactory(factory,
watchSources)` appends the factory to each listed source's list, with no
de-duplication (`container/factory.go` is not in the packaged sources). -/
def RegisterContainerHandlerFactory (factory : ContainerHandlerFactory)
    (watchTypes : List ContainerWatchSource) (reg : Registry) : Registry :=
  fun s => if s ∈ watchTypes then reg s ++ [factory] else reg s

/-- Modelled from the spec: `GetReorderedFactoryList(source)` returns the
registered list with the factory identified as `"raw"` moved to the end;
if none is so identified, order is unchanged. -/
def GetReorderedFactoryList (watchType : ContainerWatchSource) (reg : Registry) :
    List ContainerHandlerFactory :=
  (reg watchType).filter (fun f => !(f.name == "raw")) ++
    (reg watchType).filter (fun f => f.name == "raw")

/-- Modelled from the spec: the dispatch loop over a factory list — first
factory with `canHandle=true` wins; a `CanHandleAndAccept` error aborts
immediately; `canAccept=false` yields `(none, accepted=false)` with no error
and no construction; construction errors are tagged with container name and
factory identity; exhaustion is a not-found error naming the container. -/
def dispatchLoop (name : String) (envs : List String) (inHost : Bool) :
    List ContainerHandlerFactory → Except Err (Option ContainerHandler × Bool)
  | [] => Except.error (Err.noHandlerFound name)
  | f :: rest =>
    match f.canHandleAndAccept name with
    | Except.error e => Except.error e
    | Except.ok (canHandle, canAccept) =>
      if canHandle then
        if canAccept then
          match f.newContainerHandler name envs inHost with
          | Except.error e => Except.error (Err.constructionFailed name f.name e)
          | Except.ok h => Except.ok (some h, true)
        else Except.ok (none, false)
      else dispatchLoop name envs inHost rest

/-- Modelled from the spec: `NewContainerHandler(name, watchType,
metadataEnvAllowList, inHostNamespace)` dispatches over the reordered
factory list of the watch source. -/
def NewContainerHandler (name : String) (watchType : ContainerWatchSource)
    (envs : List String) (inHost : Bool) (reg : Registry) :
    Except Err (Option ContainerHandler × Bool) :=
  dispatchLoop name envs inHost (GetReorderedFactoryList watchType reg)

/-- A whole registration history applied to the empty registry. -/
def registerAll (regs : List (ContainerHandlerFactory × List ContainerWatchSource)) :
    Registry :=
  regs.foldl (fun reg p => RegisterContainerHandlerFactory p.1 p.2 reg) emptyRegistry

/-! ## Concrete instances used by witnesses and counterexamples -/

/-- A concrete container info. -/
def demoCont : ContainerInfo :=
  { name := "/a", aliases := [], ns := "", spec := 1, stats := 2 }

/-- A second concrete container info, keyed at the root. -/
def demoRootCont : ContainerInfo :=
  { name := "/", aliases := [], ns := "", spec := 3, stats := 4 }

/-- A writer that always succeeds. -/
def demoWriter : RespWriter := fun _ => none

/-- A request with no query parameters and a well-formed body. -/
def demoRequest : HttpRequest :=
  { body := Except.ok (Query.mk 0)
    queryParams := fun _ => ""
    parseDuration := fun _ => none
    eventReq := Except.ok ({ id := 0, containerName := "" }, false)
    streamResults := fun ch => Except.ok (Value.streamed ch) }

/-- A manager whose calls all succeed. -/
def demoManager : Manager :=
  { getMachineInfo := Except.ok (MachineInfo.mk 0)
    getContainerInfo := fun _ _ => Except.ok demoCont
    subcontainersInfo := fun _ _ => Except.ok [demoCont]
    allDockerContainers := fun _ => Except.ok [("/a", demoCont)]
    dockerContainer := fun _ _ => Except.ok demoCont
    getRequestedContainersInfo := fun _ _ => ([("/a", demoCont)], none)
    getPastEvents := fun _ => Except.ok (Events.mk 0)
    watchForEvents := fun _ => Except.ok (EventChannel.mk 0) }

/-- A manager whose `GetRequestedContainersInfo` returns partial results
together with an error. -/
def demoManagerPartialErr : Manager :=
  { demoManager with
    getRequestedContainersInfo := fun _ _ => ([("/a", demoCont)], some (Err.external 7)) }

/-- A manager whose `GetRequestedContainersInfo` returns no results and an
error. -/
def demoManagerEmptyErr : Manager :=
  { demoManager with
    getRequestedContainersInfo := fun _ _ => ([], some (Err.external 7)) }

/-! ## Claims -/

/-- C5: along each version chain, every revision's supported-request-type
set is a superset of its predecessor's: {containers, machine} ⊆ v1.0 ⊆ v1.1
(adding subcontainers) ⊆ v1.2 (adding docker) ⊆ v1.3 (adding events), and
v2.1's set is a superset of v2.0's. -/
theorem supportedRequestTypes_monotone :
    containersAPI ∈ version1_0.SupportedRequestTypes ∧
    machineAPI ∈ version1_0.SupportedRequestTypes ∧
    version1_0.SupportedRequestTypes ⊆ version1_1.SupportedRequestTypes ∧
    version1_1.SupportedRequestTypes ⊆ version1_2.SupportedRequestTypes ∧
    version1_2.SupportedRequestTypes ⊆ version1_3.SupportedRequestTypes ∧
    version2_0.SupportedRequestTypes ⊆ version2_1.SupportedRequestTypes ∧
    version1_1.SupportedRequestTypes = version1_0.SupportedRequestTypes ++ [subcontainersAPI] ∧
    version1_2.SupportedRequestTypes = version1_1.SupportedRequestTypes ++ [dockerAPI] ∧
    version1_3.SupportedRequestTypes = version1_2.SupportedRequestTypes ++ [eventsAPI] := by
  refine ⟨by decide, by decide, by decide, by decide, by decide, by decide, rfl, rfl, rfl⟩

/-- C1 counterexample: v2.0 advertises `version` in its
SupportedRequestTypes, yet its HandleRequest — after a successful shared
request-options parse — answers it with the unknown-request-type error. -/
theorem version2_0_version_advertised_but_unhandled :
    versionAPI ∈ version2_0.SupportedRequestTypes ∧
    GetRequestOptions demoRequest =
      Except.ok { idType := v2.TypeName, count := 64, recursive := false, maxAge := none } ∧
    version2_0.HandleRequest versionAPI [] demoManager demoWriter demoRequest =
      Except.error (Err.unknownRequestType versionAPI) := by
  exact ⟨by decide, rfl, rfl⟩

/-- C1 (amended): for the independent root revision v2.0, after a successful
shared request-options parse only the `stats` request type is handled:
HandleRequest on `stats` runs handleStatsAPI with the parsed options, while
every other advertised type (version, attributes, events, machine, summary,
spec, storage, ps, appmetrics) returns the unknown-request-type error. -/
theorem version2_0_handles_only_stats (t : String) (request : List String)
    (m : Manager) (wf : RespWriter) (r : HttpRequest) (opt : RequestOptions)
    (hopt : GetRequestOptions r = Except.ok opt) :
    (t ∈ version2_0.SupportedRequestTypes → t ≠ statsAPI →
      version2_0.HandleRequest t request m wf r =
        Except.error (Err.unknownRequestType t)) ∧
    version2_0.HandleRequest statsAPI request m wf r =
      version2_0.handleStatsAPI request opt m wf := by
  constructor
  · intro _ hne
    simp [version2_0.HandleRequest, hopt, hne]
  · simp [version2_0.HandleRequest, hopt]

/-- Witness for C1's amended theorem at the advertised type `version` with a
concrete manager, writer and request. -/
theorem version2_0_handles_only_stats_witness :
    version2_0.HandleRequest versionAPI ["a"] demoManager demoWriter demoRequest =
      Except.error (Err.unknownRequestType versionAPI) := by
  exact (version2_0_handles_only_stats versionAPI ["a"] demoManager demoWriter demoRequest
    { idType := v2.TypeName, count := 64, recursive := false, maxAge := none } rfl).1
    (by decide) (by decide)

/-- The empty string is not an integer for `strconv.Atoi`. -/
lemma atoi_empty : atoi "" = none := rfl

/-- C4: GetRequestOptions parses the query parameters as specified: a
provided `type` outside the allow-set {name, docker, podman} fails; a
provided `count` must parse as an integer and be ≥ −1 else it fails, and
defaults to 64 when absent; `recursive` becomes true exactly on the literal
"true"; a provided `max_age` must parse as a duration else it fails, and
stays unset when absent; well-formed parameters succeed (in particular
count=-1 is accepted). -/
theorem getRequestOptions_parse_spec (r : HttpRequest) :
    ((r.queryParams "type" ≠ "" → supportedTypes (r.queryParams "type") = false →
      GetRequestOptions r = Except.error (Err.unknownIdType (r.queryParams "type")))) ∧
    ((r.queryParams "type" = "" ∨ supportedTypes (r.queryParams "type") = true) →
      r.queryParams "count" ≠ "" → atoi (r.queryParams "count") = none →
      GetRequestOptions r = Except.error (Err.countParse (r.queryParams "count"))) ∧
    (∀ n : Int, (r.queryParams "type" = "" ∨ supportedTypes (r.queryParams "type") = true) →
      atoi (r.queryParams "count") = some n → n < -1 →
      GetRequestOptions r = Except.error (Err.countInvalid n)) ∧
    ((r.queryParams "type" = "" ∨ supportedTypes (r.queryParams "type") = true) →
      (r.queryParams "count" = "" ∨ ∃ n : Int, atoi (r.queryParams "count") = some n ∧ ¬ n < -1) →
      r.queryParams "max_age" ≠ "" → r.parseDuration (r.queryParams "max_age") = none →
      GetRequestOptions r = Except.error (Err.maxAgeParse (r.queryParams "max_age"))) ∧
    ((r.queryParams "type" = "" ∨ supportedTypes (r.queryParams "type") = true) →
      (r.queryParams "count" = "" ∨ ∃ n : Int, atoi (r.queryParams "count") = some n ∧ ¬ n < -1) →
      (r.queryParams "max_age" = "" ∨ ∃ d, r.parseDuration (r.queryParams "max_age") = some d) →
      (GetRequestOptions r).isOk = true) ∧
    (∀ opt, GetRequestOptions r = Except.ok opt →
      (r.queryParams "type" = "" → opt.idType = v2.TypeName) ∧
      (r.queryParams "type" ≠ "" → opt.idType = r.queryParams "type") ∧
      (r.queryParams "count" = "" → opt.count = 64) ∧
      (∀ n : Int, atoi (r.queryParams "count") = some n → opt.count = n ∧ -1 ≤ n) ∧
      (opt.recursive = true ↔ r.queryParams "recursive" = "true") ∧
      (r.queryParams "max_age" = "" → opt.maxAge = none) ∧
      (∀ d, r.queryParams "max_age" ≠ "" → r.parseDuration (r.queryParams "max_age") = some d →
        opt.maxAge = some d)) := by
  refine ⟨?_, ?_, ?_, ?_, ?_, ?_⟩
  · intro ht hs
    simp [GetRequestOptions, ht, hs]
  · intro hty hc ha
    rcases hty with ht | hs
    · simp [GetRequestOptions, ht, hc, ha]
    · by_cases ht : r.queryParams "type" = "" <;>
        simp [GetRequestOptions, ht, hs, hc, ha]
  · intro n hty ha hn
    have hc : r.queryParams "count" ≠ "" := by
      intro hc
      rw [hc] at ha
      exact Option.noConfusion ((rfl : atoi "" = none) ▸ ha)
    rcases hty with ht | hs
    · simp [GetRequestOptions, ht, hc, ha, hn]
    · by_cases ht : r.queryParams "type" = "" <;>
        simp [GetRequestOptions, ht, hs, hc, ha, hn]
  · intro hty hcnt hma hd
    have hcount : ∀ o1 : RequestOptions,
        (if r.queryParams "count" = "" then Except.ok o1
         else match atoi (r.queryParams "count") with
           | none => Except.error (Err.countParse (r.queryParams "count"))
           | some n => if n < -1 then Except.error (Err.countInvalid n)
             else Except.ok { o1 with count := n }) =
        Except.ok (if r.queryParams "count" = "" then o1
          else { o1 with count := (atoi (r.queryParams "count")).getD 0 }) := by
      intro o1
      rcases hcnt with hc | ⟨n, ha, hn⟩
      · simp [hc]
      · have hc : r.queryParams "count" ≠ "" := by
          intro hc
          rw [hc] at ha
          exact Option.noConfusion ((rfl : atoi "" = none) ▸ ha)
        simp [hc, ha, hn]
    rcases hty with ht | hs
    · simp [GetRequestOptions, ht, hcount, hma, hd]
    · by_cases ht : r.queryParams "type" = "" <;>
        simp [GetRequestOptions, ht, hs, hcount, hma, hd]
  · intro hty hcnt hmage
    have hcount : ∀ o1 : RequestOptions,
        (if r.queryParams "count" = "" then Except.ok o1
         else match atoi (r.queryParams "count") with
           | none => Except.error (Err.countParse (r.queryParams "count"))
           | some n => if n < -1 then Except.error (Err.countInvalid n)
             else Except.ok { o1 with count := n }) =
        Except.ok (if r.queryParams "count" = "" then o1
          else { o1 with count := (atoi (r.queryParams "count")).getD 0 }) := by
      intro o1
      rcases hcnt with hc | ⟨n, ha, hn⟩
      · simp [hc]
      · have hc : r.queryParams "count" ≠ "" := by
          intro hc
          rw [hc] at ha
          exact Option.noConfusion ((rfl : atoi "" = none) ▸ ha)
        simp [hc, ha, hn]
    rcases hty with ht | hs <;>
      rcases hmage with hma | ⟨d, hd⟩ <;>
        by_cases ht2 : r.queryParams "type" = "" <;>
          by_cases hma2 : r.queryParams "max_age" = "" <;>
            simp_all [GetRequestOptions, Except.isOk, Except.toBool, hcount, atoi_empty]
  · intro opt h
    by_cases ht : r.queryParams "type" = "" <;>
      by_cases hs : supportedTypes (r.queryParams "type") = true <;>
        by_cases hc : r.queryParams "count" = "" <;>
          by_cases hrec : r.queryParams "recursive" = "true" <;>
            by_cases hma : r.queryParams "max_age" = "" <;>
              rcases hatoi : atoi (r.queryParams "count") with _ | n <;>
                simp only [GetRequestOptions, ht, hs, hc, hrec, hma, hatoi,
                  if_true, if_false, ite_true, ite_false] at h <;>
                (try by_cases hn : n < -1) <;>
                  (try simp only [hn, if_true, if_false, ite_true, ite_false] at h) <;>
                    rcases hd : r.parseDuration (r.queryParams "max_age") with _ | d <;>
                      (try simp only [hd] at h) <;>
                        first
                        | (injection h with h'; subst h';
                           simp_all [supportedTypes, atoi_empty])
                        | simp_all [supportedTypes, atoi_empty]

/-- A request whose only query parameter is `type=bogus`. -/
def reqBogusType : HttpRequest :=
  { demoRequest with queryParams := fun k => if k = "type" then "bogus" else "" }

/-- A request with query parameters `count=-1` and `recursive=true`. -/
def reqCountNeg1 : HttpRequest :=
  { demoRequest with
    queryParams := fun k =>
      if k = "count" then "-1" else if k = "recursive" then "true" else "" }

/-- Witness for C4: `type=bogus` is rejected with the unknown-type error,
and `count=-1` (with `recursive=true`, no `max_age`) is accepted. -/
theorem getRequestOptions_parse_spec_witness :
    GetRequestOptions reqBogusType = Except.error (Err.unknownIdType "bogus") ∧
    (GetRequestOptions reqCountNeg1).isOk = true := by
  constructor
  · exact (getRequestOptions_parse_spec reqBogusType).1 (by decide) (by decide)
  · exact (getRequestOptions_parse_spec reqCountNeg1).2.2.2.2.1 (Or.inl (by decide))
      (Or.inr ⟨-1, by decide, by decide⟩) (Or.inl (by decide))

/-- C6: for every request type not among a revision's own newly introduced
types, that revision's HandleRequest delegates the request unchanged (same
type, path segments, manager, writer, request) to its predecessor,
recursively; a type recognized by no revision of the v1 chain reaches v1.0,
which returns the unknown-request-type error; v2.1 likewise delegates all
non-new types to v2.0. -/
theorem handleRequest_delegation (t : String) (request : List String)
    (m : Manager) (wf : RespWriter) (r : HttpRequest) :
    (t ≠ subcontainersAPI →
      version1_1.HandleRequest t request m wf r = version1_0.HandleRequest t request m wf r) ∧
    (t ≠ dockerAPI →
      version1_2.HandleRequest t request m wf r = version1_1.HandleRequest t request m wf r) ∧
    (t ≠ eventsAPI →
      version1_3.HandleRequest t request m wf r = version1_2.HandleRequest t request m wf r) ∧
    (t ∉ version1_3.SupportedRequestTypes →
      version1_3.HandleRequest t request m wf r = Except.error (Err.unknownRequestType t)) ∧
    (t ≠ machineStatsAPI → t ≠ statsAPI →
      version2_1.HandleRequest t request m wf r = version2_0.HandleRequest t request m wf r) := by
  refine ⟨?_, ?_, ?_, ?_, ?_⟩
  · intro h
    simp [version1_1.HandleRequest, h]
  · intro h
    simp [version1_2.HandleRequest, h]
  · intro h
    simp [version1_3.HandleRequest, h]
  · intro hmem
    simp only [version1_3.SupportedRequestTypes, version1_2.SupportedRequestTypes,
      version1_1.SupportedRequestTypes, version1_0.SupportedRequestTypes,
      List.mem_append, List.mem_cons, List.not_mem_nil, or_false, not_or] at hmem
    obtain ⟨⟨⟨h1, h2⟩, h3⟩, h4⟩ := hmem
    obtain ⟨h1a, h1b⟩ := h1
    simp [version1_3.HandleRequest, version1_2.HandleRequest, version1_1.HandleRequest,
      version1_0.HandleRequest, h1a, h1b, h2, h3, h4]
  · intro h1 h2
    cases hg : GetRequestOptions r with
    | error e => simp [version2_1.HandleRequest, version2_0.HandleRequest, hg]
    | ok opt => simp [version2_1.HandleRequest, version2_0.HandleRequest, hg, h1, h2]

/-- Witness for C6 at the inherited type `machine` and the unrecognized type
`bogus`, with concrete manager, writer and request. -/
theorem handleRequest_delegation_witness :
    version1_1.HandleRequest machineAPI [] demoManager demoWriter demoRequest =
      version1_0.HandleRequest machineAPI [] demoManager demoWriter demoRequest ∧
    version1_3.HandleRequest "bogus" [] demoManager demoWriter demoRequest =
      Except.error (Err.unknownRequestType "bogus") := by
  exact ⟨(handleRequest_delegation machineAPI [] demoManager demoWriter demoRequest).1
      (by decide),
    (handleRequest_delegation "bogus" [] demoManager demoWriter demoRequest).2.2.2.1
      (by decide)⟩

/-- C7: a request type introduced at revision K of the v1 chain produces the
identical outcome (value written and error result) whether invoked on
revision K or on any later revision of the chain: containers/machine behave
identically on v1.0–v1.3, subcontainers on v1.1–v1.3, docker on v1.2–v1.3. -/
theorem handleRequest_transparent (t : String) (request : List String)
    (m : Manager) (wf : RespWriter) (r : HttpRequest) :
    (t ∈ version1_0.SupportedRequestTypes →
      version1_1.HandleRequest t request m wf r = version1_0.HandleRequest t request m wf r ∧
      version1_2.HandleRequest t request m wf r = version1_0.HandleRequest t request m wf r ∧
      version1_3.HandleRequest t request m wf r = version1_0.HandleRequest t request m wf r) ∧
    (version1_2.HandleRequest subcontainersAPI request m wf r =
        version1_1.HandleRequest subcontainersAPI request m wf r ∧
      version1_3.HandleRequest subcontainersAPI request m wf r =
        version1_1.HandleRequest subcontainersAPI request m wf r) ∧
    version1_3.HandleRequest dockerAPI request m wf r =
      version1_2.HandleRequest dockerAPI request m wf r := by
  refine ⟨?_, ⟨?_, ?_⟩, ?_⟩
  · intro hmem
    have ht : t = containersAPI ∨ t = machineAPI := by
      simpa [version1_0.SupportedRequestTypes] using hmem
    rcases ht with h | h <;> subst h <;>
      exact ⟨by simp [version1_1.HandleRequest, subcontainersAPI, containersAPI, machineAPI],
        by simp [version1_2.HandleRequest, version1_1.HandleRequest, dockerAPI,
          subcontainersAPI, containersAPI, machineAPI],
        by simp [version1_3.HandleRequest, version1_2.HandleRequest, version1_1.HandleRequest,
          eventsAPI, dockerAPI, subcontainersAPI, containersAPI, machineAPI]⟩
  · simp [version1_2.HandleRequest, dockerAPI, subcontainersAPI]
  · simp [version1_3.HandleRequest, version1_2.HandleRequest, eventsAPI, dockerAPI,
      subcontainersAPI]
  · simp [version1_3.HandleRequest, eventsAPI, dockerAPI]

/-- Witness for C7 at the type `containers`, introduced at v1.0 and invoked
on v1.3, with concrete manager, writer and request. -/
theorem handleRequest_transparent_witness :
    version1_3.HandleRequest containersAPI ["a"] demoManager demoWriter demoRequest =
      version1_0.HandleRequest containersAPI ["a"] demoManager demoWriter demoRequest := by
  exact ((handleRequest_transparent containersAPI ["a"] demoManager demoWriter
    demoRequest).1 (by decide)).2.2

/-- The default request options (all parameters absent). -/
def demoOpts : RequestOptions :=
  { idType := v2.TypeName, count := 64, recursive := false, maxAge := none }

/-- C8 counterexample: when partial container results accompany the manager
error, the v2.0 stats handler does not return the error — it swallows it and
serves the partial results. -/
theorem statsAPI_swallows_error_with_partial_results :
    demoManagerPartialErr.getRequestedContainersInfo "/" demoOpts =
      ([("/a", demoCont)], some (Err.external 7)) ∧
    version2_0.HandleRequest statsAPI [] demoManagerPartialErr demoWriter demoRequest =
      Except.ok (Value.deprecatedStatsMap [("/a", DeprecatedStats.fromV1 demoCont)]) := by
  exact ⟨rfl, rfl⟩

/-- C8 (amended): for stats requests on v2.0 and v2.1, a
GetRequestedContainersInfo error is returned unmodified exactly when no
container infos accompany it; when partial infos accompany the error, the
handler logs it, swallows it, and serves the partial results. -/
theorem managerError_passthrough (request : List String) (opt : RequestOptions)
    (m : Manager) (wf : RespWriter) (r : HttpRequest) (e : Err) :
    (m.getRequestedContainersInfo (getContainerName request) opt = ([], some e) →
      version2_0.handleStatsAPI request opt m wf = Except.error e) ∧
    (∀ infos, m.getRequestedContainersInfo (getContainerName request) opt = (infos, some e) →
      infos ≠ [] →
      version2_0.handleStatsAPI request opt m wf =
        writeResult wf (Value.deprecatedStatsMap
          (infos.map (fun p => (p.1, DeprecatedStats.fromV1 p.2))))) ∧
    (GetRequestOptions r = Except.ok opt →
      m.getRequestedContainersInfo (getContainerName request) opt = ([], some e) →
      version2_1.HandleRequest statsAPI request m wf r = Except.error e) ∧
    (∀ conts, GetRequestOptions r = Except.ok opt →
      m.getRequestedContainersInfo (getContainerName request) opt = (conts, some e) →
      conts ≠ [] →
      version2_1.HandleRequest statsAPI request m wf r =
        writeResult wf (Value.v2StatsMap
          ((conts.filter (fun p => !(p.1 == "/"))).map version2_1.statsEntry))) := by
  refine ⟨?_, ?_, ?_, ?_⟩
  · intro h
    simp [version2_0.handleStatsAPI, h]
  · intro infos h hne
    simp [version2_0.handleStatsAPI, h, List.length_eq_zero, hne]
  · intro hopt h
    simp [version2_1.HandleRequest, hopt, h, statsAPI, machineStatsAPI]
  · intro conts hopt h hne
    simp [version2_1.HandleRequest, hopt, h, statsAPI, machineStatsAPI,
      List.length_eq_zero, hne]

/-- Witness for C8's amended theorem: on both v2.0 and v2.1 stats, with no
accompanying results the error is passed through, and with a partial result
the error is swallowed and the partial stats are served. -/
theorem managerError_passthrough_witness :
    version2_0.handleStatsAPI [] demoOpts demoManagerEmptyErr demoWriter =
      Except.error (Err.external 7) ∧
    version2_0.handleStatsAPI [] demoOpts demoManagerPartialErr demoWriter =
      writeResult demoWriter
        (Value.deprecatedStatsMap [("/a", DeprecatedStats.fromV1 demoCont)]) ∧
    version2_1.HandleRequest statsAPI [] demoManagerEmptyErr demoWriter demoRequest =
      Except.error (Err.external 7) ∧
    version2_1.HandleRequest statsAPI [] demoManagerPartialErr demoWriter demoRequest =
      writeResult demoWriter (Value.v2StatsMap
        (([("/a", demoCont)].filter (fun p => !(p.1 == "/"))).map version2_1.statsEntry)) := by
  refine ⟨(managerError_passthrough [] demoOpts demoManagerEmptyErr demoWriter demoRequest
      (Err.external 7)).1 rfl,
    (managerError_passthrough [] demoOpts demoManagerPartialErr demoWriter demoRequest
      (Err.external 7)).2.1 [("/a", demoCont)] rfl (by decide),
    (managerError_passthrough [] demoOpts demoManagerEmptyErr demoWriter demoRequest
      (Err.external 7)).2.2.1 rfl rfl,
    (managerError_passthrough [] demoOpts demoManagerPartialErr demoWriter demoRequest
      (Err.external 7)).2.2.2 [("/a", demoCont)] rfl rfl (by decide)⟩

/-- C9: the v2.1 stats response map never contains the root key "/" — the
root cgroup entry is skipped (it is served by machinestats) — while every
other entry returned by the manager is converted and included. -/
theorem v2_1_stats_skips_root (request : List String) (opt : RequestOptions)
    (m : Manager) (wf : RespWriter) (r : HttpRequest) (conts : List (String × ContainerInfo))
    (merr : Option Err)
    (hopt : GetRequestOptions r = Except.ok opt)
    (hres : m.getRequestedContainersInfo (getContainerName request) opt = (conts, merr))
    (hok : merr = none ∨ conts ≠ []) :
    version2_1.HandleRequest statsAPI request m wf r =
      writeResult wf (Value.v2StatsMap
        ((conts.filter (fun p => !(p.1 == "/"))).map version2_1.statsEntry)) ∧
    (∀ p ∈ (conts.filter (fun p => !(p.1 == "/"))).map version2_1.statsEntry, p.1 ≠ "/") ∧
    (∀ q ∈ conts, q.1 ≠ "/" →
      version2_1.statsEntry q ∈
        (conts.filter (fun p => !(p.1 == "/"))).map version2_1.statsEntry) := by
  refine ⟨?_, ?_, ?_⟩
  · rcases merr with _ | e
    · simp [version2_1.HandleRequest, hopt, hres, statsAPI, machineStatsAPI]
    · rcases hok with hnone | hne
      · exact absurd hnone (by simp)
      · simp [version2_1.HandleRequest, hopt, hres, statsAPI, machineStatsAPI,
          List.length_eq_zero, hne]
  · intro p hp
    simp only [List.mem_map, List.mem_filter] at hp
    obtain ⟨q, ⟨_, hq2⟩, rfl⟩ := hp
    simpa [version2_1.statsEntry] using hq2
  · intro q hq hq2
    exact List.mem_map_of_mem _ (List.mem_filter.2 ⟨hq, by simpa using hq2⟩)

/-- A manager returning a root entry and one ordinary container. -/
def demoManagerRoot : Manager :=
  { demoManager with
    getRequestedContainersInfo := fun _ _ =>
      ([("/", demoRootCont), ("/a", demoCont)], none) }

/-- Witness for C9 on a manager returning the root entry and one container:
the handler writes the filtered conversion and the non-root entry is kept. -/
theorem v2_1_stats_skips_root_witness :
    version2_1.HandleRequest statsAPI ["a"] demoManagerRoot demoWriter demoRequest =
      writeResult demoWriter (Value.v2StatsMap
        ((([("/", demoRootCont), ("/a", demoCont)] :
            List (String × ContainerInfo)).filter
              (fun p => !(p.1 == "/"))).map version2_1.statsEntry)) ∧
    version2_1.statsEntry ("/a", demoCont) ∈
      (([("/", demoRootCont), ("/a", demoCont)] :
          List (String × ContainerInfo)).filter
            (fun p => !(p.1 == "/"))).map version2_1.statsEntry := by
  refine ⟨(v2_1_stats_skips_root ["a"] demoOpts demoManagerRoot demoWriter demoRequest
      [("/", demoRootCont), ("/a", demoCont)] none rfl rfl (Or.inl rfl)).1,
    (v2_1_stats_skips_root ["a"] demoOpts demoManagerRoot demoWriter demoRequest
      [("/", demoRootCont), ("/a", demoCont)] none rfl rfl (Or.inl rfl)).2.2
      ("/a", demoCont) (by decide) (by decide)⟩

/-- C10: the v1.2 docker endpoint treats a single empty segment (trailing
slash) as the empty path — the same outcome as the empty path, namely all
Docker containers; a single non-empty segment fetches that one container,
keyed by its returned name in a one-entry map; two or more segments yield
the unknown-docker-request error for every manager, without consulting the
manager. -/
theorem v1_2_docker_paths (m : Manager) (wf : RespWriter) (r : HttpRequest) :
    (version1_2.HandleRequest dockerAPI [""] m wf r =
      version1_2.HandleRequest dockerAPI [] m wf r) ∧
    (∀ q cs, r.body = Except.ok q → m.allDockerContainers q = Except.ok cs →
      version1_2.HandleRequest dockerAPI [""] m wf r = writeResult wf (Value.dockerMap cs)) ∧
    (∀ s q cont, s ≠ "" → r.body = Except.ok q → m.dockerContainer s q = Except.ok cont →
      version1_2.HandleRequest dockerAPI [s] m wf r =
        writeResult wf (Value.dockerMap [(cont.name, cont)])) ∧
    (∀ request q, 2 ≤ request.length → r.body = Except.ok q →
      version1_2.HandleRequest dockerAPI request m wf r =
        Except.error (Err.unknownDockerRequest request)) ∧
    (∀ request m', 2 ≤ request.length →
      version1_2.HandleRequest dockerAPI request m wf r =
        version1_2.HandleRequest dockerAPI request m' wf r) := by
  refine ⟨?_, ?_, ?_, ?_, ?_⟩
  · rfl
  · intro q cs hbody hall
    simp [version1_2.HandleRequest, hbody, hall]
  · intro s q cont hs hbody hdc
    simp [version1_2.HandleRequest, hbody, hdc, hs]
  · intro request q hlen hbody
    rcases request with _ | ⟨a, _ | ⟨b, rest⟩⟩
    · exact absurd hlen (by simp)
    · exact absurd hlen (by simp)
    · simp [version1_2.HandleRequest, hbody]
  · intro request m' hlen
    rcases request with _ | ⟨a, _ | ⟨b, rest⟩⟩
    · exact absurd hlen (by simp)
    · exact absurd hlen (by simp)
    · simp [version1_2.HandleRequest]

/-- Witness for C10: a concrete single-segment fetch and a concrete
two-segment rejection. -/
theorem v1_2_docker_paths_witness :
    version1_2.HandleRequest dockerAPI ["c"] demoManager demoWriter demoRequest =
      writeResult demoWriter (Value.dockerMap [("/a", demoCont)]) ∧
    version1_2.HandleRequest dockerAPI ["a", "b"] demoManager demoWriter demoRequest =
      Except.error (Err.unknownDockerRequest ["a", "b"]) := by
  exact ⟨(v1_2_docker_paths demoManager demoWriter demoRequest).2.2.1 "c" (Query.mk 0)
      demoCont (by decide) rfl rfl,
    (v1_2_docker_paths demoManager demoWriter demoRequest).2.2.2.1 ["a", "b"] (Query.mk 0)
      (by decide) rfl⟩

/-- A prefix of factories that report `canHandle=false` (without error) is
skipped by the dispatch loop. -/
lemma dispatchLoop_skip (name : String) (envs : List String) (inHost : Bool)
    (pre rest : List ContainerHandlerFactory)
    (h : ∀ g ∈ pre, ∃ b, g.canHandleAndAccept name = Except.ok (false, b)) :
    dispatchLoop name envs inHost (pre ++ rest) = dispatchLoop name envs inHost rest := by
  induction pre with
  | nil => rfl
  | cons g gs ih =>
    obtain ⟨b, hb⟩ := h g (List.mem_cons_self g gs)
    have ih' := ih (fun g' hg' => h g' (List.mem_cons_of_mem g hg'))
    simp only [List.cons_append, dispatchLoop, hb]
    simpa using ih'

/-- C2: for every registry and container name, dispatch selects the first
factory of the reordered list reporting `canHandle=true`: if no factory
reports `canHandle=true`, the result is a nil handler and a not-found error
naming the container; if the first handling factory reports
`canAccept=false`, the result is (no handler, accepted=false, no error) —
a constant outcome, so that factory's construction is never invoked; if it
reports `canAccept=true`, the outcome is that factory's construction,
independent of the factories after it. -/
theorem newContainerHandler_dispatch (contName : String)
    (watchType : ContainerWatchSource) (envs : List String) (inHost : Bool)
    (reg : Registry) :
    ((∀ f ∈ GetReorderedFactoryList watchType reg,
        ∃ b, f.canHandleAndAccept contName = Except.ok (false, b)) →
      NewContainerHandler contName watchType envs inHost reg =
        Except.error (Err.noHandlerFound contName)) ∧
    (∀ pre f post, GetReorderedFactoryList watchType reg = pre ++ f :: post →
      (∀ g ∈ pre, ∃ b, g.canHandleAndAccept contName = Except.ok (false, b)) →
      (f.canHandleAndAccept contName = Except.ok (true, false) →
        NewContainerHandler contName watchType envs inHost reg = Except.ok (none, false)) ∧
      (f.canHandleAndAccept contName = Except.ok (true, true) →
        NewContainerHandler contName watchType envs inHost reg =
          (match f.newContainerHandler contName envs inHost with
           | Except.error e => Except.error (Err.constructionFailed contName f.name e)
           | Except.ok h => Except.ok (some h, true)))) := by
  constructor
  · intro h
    have hskip := dispatchLoop_skip contName envs inHost
      (GetReorderedFactoryList watchType reg) [] h
    unfold NewContainerHandler
    simpa [dispatchLoop] using hskip
  · intro pre f post heq hpre
    have hskip := dispatchLoop_skip contName envs inHost pre (f :: post) hpre
    constructor
    · intro hf
      unfold NewContainerHandler
      rw [heq, hskip]
      simp [dispatchLoop, hf]
    · intro hf
      unfold NewContainerHandler
      rw [heq, hskip]
      simp [dispatchLoop, hf]

/-- An always-rejecting factory (mirrors the test's `allwaysNo`). -/
def factNoHandle : ContainerHandlerFactory :=
  { name := "no"
    canHandleAndAccept := fun _ => Except.ok (false, true)
    newContainerHandler := fun _ _ _ => Except.ok (ContainerHandler.mk 1) }

/-- A factory that handles but does not accept (mirrors `cannotAccept`). -/
def factNoAccept : ContainerHandlerFactory :=
  { name := "no"
    canHandleAndAccept := fun _ => Except.ok (true, false)
    newContainerHandler := fun _ _ _ => Except.ok (ContainerHandler.mk 2) }

/-- The registry of the accept test: a rejecting factory then a
handle-but-not-accept factory, both under the Raw source. -/
def regAccept : Registry :=
  RegisterContainerHandlerFactory factNoAccept [ContainerWatchSource.Raw]
    (RegisterContainerHandlerFactory factNoHandle [ContainerWatchSource.Raw] emptyRegistry)

/-- Witness for C2, mirroring the accept test: the matching factory refuses
acceptance, so dispatch returns (no handler, accepted=false, no error). -/
theorem newContainerHandler_dispatch_witness :
    NewContainerHandler "/test" ContainerWatchSource.Raw [] true regAccept =
      Except.ok (none, false) := by
  exact ((newContainerHandler_dispatch "/test" ContainerWatchSource.Raw [] true regAccept).2
    [factNoHandle] factNoAccept [] rfl
    (by
      intro g hg
      rw [List.mem_singleton] at hg
      subst hg
      exact ⟨true, rfl⟩)).1 rfl

/-- Folding a registration history over any registry appends, per source,
the factories registered for that source in order. -/
lemma registerAll_go (regs : List (ContainerHandlerFactory × List ContainerWatchSource))
    (reg : Registry) (s : ContainerWatchSource) :
    (regs.foldl (fun reg p => RegisterContainerHandlerFactory p.1 p.2 reg) reg) s =
      reg s ++ (regs.filter (fun p => s ∈ p.2)).map Prod.fst := by
  induction regs generalizing reg with
  | nil => simp
  | cons p ps ih =>
    simp only [List.foldl_cons]
    rw [ih]
    by_cases hs : s ∈ p.2
    · simp [RegisterContainerHandlerFactory, hs, List.filter_cons]
    · simp [RegisterContainerHandlerFactory, hs, List.filter_cons]

/-- The factory list a registration history produces for one source. -/
lemma registerAll_sourceList (regs : List (ContainerHandlerFactory × List ContainerWatchSource))
    (s : ContainerWatchSource) :
    registerAll regs s = (regs.filter (fun p => s ∈ p.2)).map Prod.fst := by
  simpa [emptyRegistry] using registerAll_go regs emptyRegistry s

/-- C3: after any sequence of Register calls, ReorderedList(S) returns
exactly the factories registered for S (a permutation of the registration
order); whenever one of them is identified as "raw", the returned list ends
in a "raw" factory; the relative order of the non-"raw" factories is the
registration order; and when none is identified as "raw" the list is
exactly the registration order. -/
theorem getReorderedFactoryList_spec
    (regs : List (ContainerHandlerFactory × List ContainerWatchSource))
    (s : ContainerWatchSource) :
    List.Perm (GetReorderedFactoryList s (registerAll regs))
      ((regs.filter (fun p => s ∈ p.2)).map Prod.fst) ∧
    ((∃ f ∈ (regs.filter (fun p => s ∈ p.2)).map Prod.fst, f.name = "raw") →
      ∃ g, (GetReorderedFactoryList s (registerAll regs)).getLast? = some g ∧
        g.name = "raw") ∧
    (GetReorderedFactoryList s (registerAll regs)).filter (fun f => !(f.name == "raw")) =
      ((regs.filter (fun p => s ∈ p.2)).map Prod.fst).filter (fun f => !(f.name == "raw")) ∧
    ((∀ f ∈ (regs.filter (fun p => s ∈ p.2)).map Prod.fst, f.name ≠ "raw") →
      GetReorderedFactoryList s (registerAll regs) =
        (regs.filter (fun p => s ∈ p.2)).map Prod.fst) := by
  have hL : GetReorderedFactoryList s (registerAll regs) =
      ((regs.filter (fun p => s ∈ p.2)).map Prod.fst).filter (fun f => !(f.name == "raw")) ++
        ((regs.filter (fun p => s ∈ p.2)).map Prod.fst).filter (fun f => f.name == "raw") := by
    simp [GetReorderedFactoryList, registerAll_sourceList]
  refine ⟨?_, ?_, ?_, ?_⟩
  · rw [hL]
    have h := List.filter_append_perm
      (fun f : ContainerHandlerFactory => !(f.name == "raw"))
      ((regs.filter (fun p => s ∈ p.2)).map Prod.fst)
    simpa [Bool.not_not] using h
  · rintro ⟨f, hf, hraw⟩
    have hfB : f ∈ ((regs.filter (fun p => s ∈ p.2)).map Prod.fst).filter
        (fun g => g.name == "raw") := List.mem_filter.2 ⟨hf, by simp [hraw]⟩
    have hne : ((regs.filter (fun p => s ∈ p.2)).map Prod.fst).filter
        (fun g => g.name == "raw") ≠ [] := List.ne_nil_of_mem hfB
    refine ⟨(((regs.filter (fun p => s ∈ p.2)).map Prod.fst).filter
        (fun g => g.name == "raw")).getLast hne, ?_, ?_⟩
    · rw [hL, List.getLast?_append_of_ne_nil _ hne]
      exact List.getLast?_eq_getLast _ hne
    · have hmem := List.getLast_mem hne
      simpa using (List.mem_filter.1 hmem).2
  · rw [hL]
    simp
  · intro h
    rw [hL]
    have h1 : ((regs.filter (fun p => s ∈ p.2)).map Prod.fst).filter
        (fun g => g.name == "raw") = [] := by
      rw [List.filter_eq_nil_iff]
      intro a ha
      simp [h a ha]
    have h2 : ((regs.filter (fun p => s ∈ p.2)).map Prod.fst).filter
        (fun g => !(g.name == "raw")) = ((regs.filter (fun p => s ∈ p.2)).map Prod.fst) := by
      rw [List.filter_eq_self]
      intro a ha
      simp [h a ha]
    rw [h1, h2, List.append_nil]

/-- The generic fallback factory of the reorder test (identity "raw"). -/
def factRaw : ContainerHandlerFactory :=
  { name := "raw"
    canHandleAndAccept := fun _ => Except.ok (true, true)
    newContainerHandler := fun _ _ _ => Except.ok (ContainerHandler.mk 0) }

/-- The "crio" factory of the reorder test. -/
def factCrio : ContainerHandlerFactory :=
  { name := "crio"
    canHandleAndAccept := fun _ => Except.ok (false, true)
    newContainerHandler := fun _ _ _ => Except.ok (ContainerHandler.mk 3) }

/-- The "containerd" factory of the reorder test. -/
def factContainerd : ContainerHandlerFactory :=
  { name := "containerd"
    canHandleAndAccept := fun _ => Except.ok (false, true)
    newContainerHandler := fun _ _ _ => Except.ok (ContainerHandler.mk 4) }

/-- The registration history of the reorder test: raw first, then crio,
then containerd, all under the Raw source. -/
def demoRegs : List (ContainerHandlerFactory × List ContainerWatchSource) :=
  [(factRaw, [ContainerWatchSource.Raw]), (factCrio, [ContainerWatchSource.Raw]),
   (factContainerd, [ContainerWatchSource.Raw])]

/-- The same history without the raw factory. -/
def demoRegsNoRaw : List (ContainerHandlerFactory × List ContainerWatchSource) :=
  [(factCrio, [ContainerWatchSource.Raw]), (factContainerd, [ContainerWatchSource.Raw])]

/-- Witness for C3, mirroring the reorder test: registering raw first still
puts it last (the reordered list's last identity is "raw"), the reordered
list is a permutation of the registered one, and without a raw factory the
order is untouched. -/
theorem getReorderedFactoryList_spec_witness :
    (GetReorderedFactoryList ContainerWatchSource.Raw (registerAll demoRegs)).getLast?.map
        (fun g => g.name) = some "raw" ∧
    List.Perm (GetReorderedFactoryList ContainerWatchSource.Raw (registerAll demoRegs))
      ((demoRegs.filter (fun p => ContainerWatchSource.Raw ∈ p.2)).map Prod.fst) ∧
    GetReorderedFactoryList ContainerWatchSource.Raw (registerAll demoRegsNoRaw) =
      ((demoRegsNoRaw.filter (fun p => ContainerWatchSource.Raw ∈ p.2)).map Prod.fst) := by
  refine ⟨?_, (getReorderedFactoryList_spec demoRegs ContainerWatchSource.Raw).1, ?_⟩
  · obtain ⟨g, hg, hgname⟩ :=
      (getReorderedFactoryList_spec demoRegs ContainerWatchSource.Raw).2.1
        ⟨factRaw, by simp [demoRegs], rfl⟩
    rw [hg]
    simp [hgname]
  · refine (getReorderedFactoryList_spec demoRegsNoRaw ContainerWatchSource.Raw).2.2.2 ?_
    intro f hf
    simp only [demoRegsNoRaw, List.filter_cons, List.filter_nil] at hf
    simp only [List.mem_map] at hf
    obtain ⟨p, hp, rfl⟩ := hf
    simp at hp
    rcases hp with hp | hp <;> simp [hp, factCrio, factContainerd]
